import Mathlib

/-!
Shallow embedding of the anime-empire-support-bot pipeline
(`customer_support_agent.py`, `main_support_bot.py`, `review_dashboard.py`).
Strings are modelled as `List Char`; Python's case-folding, whitespace
stripping and substring operations are modelled for the ASCII data the
program manipulates.
-/

abbrev Txt := List Char

/-- ASCII model of Python `str.lower`. -/
def lowerText (s : Txt) : Txt := s.map Char.toLower

/-- The characters Python `str.strip()` removes and `\s` matches (ASCII). -/
def isPySpace (c : Char) : Bool :=
  c == ' ' || c == '\t' || c == '\n' || c == '\r' || c == '\x0b' || c == '\x0c'

/-- Python `str.strip()`. -/
def pyStrip (s : Txt) : Txt :=
  ((s.dropWhile isPySpace).reverse.dropWhile isPySpace).reverse

/-- Python's substring test `pat in s`. -/
def isSub (pat : Txt) : Txt → Bool
  | [] => pat.isPrefixOf []
  | c :: t => pat.isPrefixOf (c :: t) || isSub pat t

/-- Worker for `replaceAll`, structurally recursive on a fuel bound.  When a
non-empty `pat` matches, at least one character is consumed, so fuel equal to
the input length suffices; with the fuel exhausted the remainder is returned
unchanged (unreachable under the invariant). -/
def replaceAllGo (pat rep : Txt) : Nat → Txt → Txt
  | _, [] => []
  | 0, s => s
  | fuel + 1, c :: rest =>
    if pat ≠ [] ∧ pat.isPrefixOf (c :: rest) = true then
      rep ++ replaceAllGo pat rep fuel ((c :: rest).drop pat.length)
    else
      c :: replaceAllGo pat rep fuel rest

/-- Python `str.replace pat rep` (replaces every non-overlapping occurrence,
left to right).  The program only calls it with a non-empty pattern. -/
def replaceAll (pat rep : Txt) (s : Txt) : Txt :=
  replaceAllGo pat rep s.length s

/-- Number of positions of `s` at which `pat` occurs as a prefix of the suffix. -/
def countOcc (pat : Txt) : Txt → Nat
  | [] => 0
  | c :: t => (if pat.isPrefixOf (c :: t) then 1 else 0) + countOcc pat t

/-! ## Sender Filter — `CustomerSupportAgent.is_blocked_sender` -/

def blocked_domains : List Txt :=
  [("aliexpress.com").toList, ("shopify.com").toList, ("myshopify.com").toList,
   ("noreply").toList, ("no-reply").toList, ("donotreply").toList,
   ("notifications@").toList, ("marketing@").toList, ("sales@").toList,
   ("support@shopify").toList, ("alerts@").toList]

def blocked_keywords : List Txt :=
  [("aliexpress").toList, ("shopify notification").toList, ("shopify alert").toList,
   ("automatic notification").toList, ("system notification").toList]

/-- `is_blocked_sender`: lowercase both inputs, scan the domain list against the
email, then the keyword list against name or email; first match wins and is
reported via a formatted reason string. -/
def is_blocked_sender (sender_email sender_name : Txt) : Bool × Txt :=
  let se := lowerText sender_email
  let sn := lowerText sender_name
  match blocked_domains.find? (fun d => isSub d se) with
  | some d => (true, ("Blocked domain: ").toList ++ d)
  | none =>
    match blocked_keywords.find? (fun k => isSub k sn || isSub k se) with
    | some k => (true, ("Blocked keyword: ").toList ++ k)
    | none => (false, [])

/-! ## Intent Classifier — `CustomerSupportAgent.classify_email_intent` -/

structure Classification where
  is_spam : Bool
  intent : Txt
  all_intents : List Txt
  confidence : ℚ
deriving DecidableEq

def spam_keywords : List Txt :=
  [("seo service").toList, ("boost your sales").toList, ("increase traffic").toList,
   ("marketing service").toList, ("grow your business").toList, ("website optimization").toList,
   ("google ranking").toList, ("social media marketing").toList, ("advertising opportunity").toList,
   ("partner with us").toList, ("collaboration opportunity").toList, ("influencer").toList,
   ("backlinks").toList, ("web design").toList, ("app development").toList, ("consulting").toList]

/-- The intent table in its Python (insertion-ordered dict) declaration order. -/
def intents : List (Txt × List Txt) :=
  [(("tracking").toList,
    [("where is my order").toList, ("tracking").toList, ("shipped").toList,
     ("delivery").toList, ("havent received").toList, ("not arrived").toList]),
   (("return_refund").toList,
    [("return").toList, ("refund").toList, ("money back").toList,
     ("send back").toList, ("exchange").toList]),
   (("defective").toList,
    [("defective").toList, ("broken").toList, ("damaged").toList,
     ("wrong item").toList, ("missing").toList, ("torn").toList]),
   (("address_change").toList,
    [("change address").toList, ("wrong address").toList, ("update address").toList,
     ("different address").toList, ("ship to").toList]),
   (("sizing").toList,
    [("too small").toList, ("too big").toList, ("doesnt fit").toList,
     ("wrong size").toList, ("size issue").toList, ("fit").toList]),
   (("general").toList,
    [("question").toList, ("info").toList, ("how long").toList,
     ("when will").toList, ("sizing").toList, ("kids").toList])]

/-- `classify_email_intent`: spam gate first, then the first matching intent in
declaration order, defaulting to `general`.  The spam return carries no
`all_intents` key in the source; it is modelled as the empty list. -/
def classify_email_intent (email_body subject : Txt) : Classification :=
  let email_lower := lowerText (email_body ++ (" ").toList ++ subject)
  if spam_keywords.any (fun k => isSub k email_lower) then
    { is_spam := true, intent := ("spam").toList, all_intents := [], confidence := 9/10 }
  else
    let detected_intents :=
      (intents.filter (fun p => p.2.any (fun k => isSub k email_lower))).map Prod.fst
    { is_spam := false, intent := detected_intents.headD (("general").toList),
      all_intents := detected_intents, confidence := 7/10 }

/-! ## Order Number Extraction — `CustomerSupportAgent.extract_order_number`

The source applies `re.search` with the patterns `#(\d{4,6})`,
`order\s*#?\s*(\d{4,6})` (IGNORECASE) and `\b(\d{4,6})\b`, in that order.
Each pattern is embedded as a matcher at a fixed position plus a left-to-right
scan (`re.search` returns the leftmost position at which the pattern matches).
-/

/-- Greedy `\d{4,6}` at the start of `s` with nothing after it in the pattern:
matches iff at least 4 digits follow, capturing at most 6. -/
def matchD46End (s : Txt) : Option Txt :=
  let run := s.takeWhile Char.isDigit
  if 4 ≤ run.length then some (run.take 6) else none

/-- `#(\d{4,6})` anchored at the current position. -/
def p1At (s : Txt) : Option Txt :=
  match s with
  | c :: rest => if c = '#' then matchD46End rest else none
  | [] => none

/-- `order\s*#?\s*(\d{4,6})` (IGNORECASE) anchored at the current position.
Since whitespace, `#` and digits are disjoint character classes, the regex
engine's greedy matching with backtracking is deterministic here: consume all
whitespace, then one optional `#`, then all whitespace, then the digits. -/
def p2At (s : Txt) : Option Txt :=
  if lowerText (s.take 5) = ("order").toList then
    let r1 := (s.drop 5).dropWhile isPySpace
    let r2 := match r1 with
      | c :: t => if c = '#' then t else c :: t
      | [] => []
    matchD46End (r2.dropWhile isPySpace)
  else none

def isWordChar (c : Char) : Bool :=
  c.isDigit || ('a' ≤ c && c ≤ 'z') || ('A' ≤ c && c ≤ 'Z') || c == '_'

/-- `\b(\d{4,6})\b` anchored at the current position (`prev` is the character
just before it).  A maximal digit run longer than 6 cannot match: every
backtracked endpoint would sit between two digits, violating the trailing
`\b`; likewise a run of 4–6 digits followed by a letter or `_` fails. -/
def p3At (prev : Option Char) (s : Txt) : Option Txt :=
  let run := s.takeWhile Char.isDigit
  let okBefore := match prev with
    | none => true
    | some c => !(isWordChar c)
  let okAfter := match s.drop run.length with
    | [] => true
    | c :: _ => !(isWordChar c)
  if okBefore && decide (4 ≤ run.length) && decide (run.length ≤ 6) && okAfter then
    some run
  else none

/-- `re.search` for a position-anchored matcher: try each start position from
the left, returning the first success. -/
def reSearch (f : Txt → Option Txt) : Txt → Option Txt
  | [] => f []
  | c :: t =>
    match f (c :: t) with
    | some r => some r
    | none => reSearch f t

/-- `re.search` for a matcher that also inspects the preceding character. -/
def reSearchB (f : Option Char → Txt → Option Txt) : Option Char → Txt → Option Txt
  | prev, [] => f prev []
  | prev, c :: t =>
    match f prev (c :: t) with
    | some r => some r
    | none => reSearchB f (some c) t

/-- `extract_order_number`: the three patterns tried strictly in order, each
searched across the whole text before the next is attempted. -/
def extract_order_number (text : Txt) : Option Txt :=
  match reSearch p1At text with
  | some m => some m
  | none =>
    match reSearch p2At text with
    | some m => some m
    | none => reSearchB p3At none text

/-! ## Directive extraction — `CustomerSupportAgent.generate_response`

The post-LLM logic of `generate_response`: detect a leading
`NEEDS_HUMAN_REVIEW:` directive, compute the reason via
`reason_line.replace("NEEDS_HUMAN_REVIEW:", "").strip()` and the clean body
via `response_text.replace(reason_line, "").strip()` (Python `str.replace`
replaces every occurrence).  The LLM call itself is an oracle input.
-/

def needsHumanPrefix : Txt := ("NEEDS_HUMAN_REVIEW:").toList
def spamPrefix : Txt := ("SPAM_DETECTED:").toList
def actionToken : Txt := ("ACTION_REQUIRED:").toList

/-- Python `raw.split('\n')[0]`. -/
def firstLine (s : Txt) : Txt := s.takeWhile (fun c => c != '\n')

/-- The directive-extraction step of `generate_response`: returns the
escalation reason (when the text starts with the escalation prefix) and the
customer-facing body. -/
def parse_directive (raw : Txt) : Option Txt × Txt :=
  if needsHumanPrefix.isPrefixOf raw then
    let reason_line := firstLine raw
    (some (pyStrip (replaceAll needsHumanPrefix [] reason_line)),
     pyStrip (replaceAll reason_line [] raw))
  else (none, raw)

structure AIResponse where
  rtype : Txt
  response : Option Txt
  should_send : Bool
  flag_for_human : Bool
  human_review_reason : Option Txt
  needs_action : Bool
  intent : Option Txt
deriving DecidableEq

/-- `generate_response`, with the LLM call abstracted as an oracle:
`Except.ok raw` is the raw text returned by the policy engine, and
`Except.error e` a raised exception whose string rendering is `e`.  The order
context influences only the prompt sent to the oracle, so it does not appear
here.  Fields absent from the corresponding Python dict (`intent` on the spam
and error paths, `human_review_reason` on the spam path, `needs_action` on
the spam and error paths) are modelled as `none` / `false`, matching
`dict.get` in the caller. -/
def generate_response (email_subject email_body : Txt) (llm : Except Txt Txt) : AIResponse :=
  let classification := classify_email_intent email_body email_subject
  if classification.is_spam then
    { rtype := ("spam").toList, response := none, should_send := false,
      flag_for_human := false, human_review_reason := none,
      needs_action := false, intent := none }
  else
    match llm with
    | Except.error e =>
      { rtype := ("error").toList, response := none, should_send := false,
        flag_for_human := true,
        human_review_reason := some (("AI error: ").toList ++ e),
        needs_action := false, intent := none }
    | Except.ok response_text0 =>
      let needs_human := needsHumanPrefix.isPrefixOf response_text0
      let is_spam := spamPrefix.isPrefixOf response_text0
      let parsed := parse_directive response_text0
      { rtype := ("customer_inquiry").toList,
        response := some parsed.2,
        should_send := !needs_human && !is_spam,
        flag_for_human := needs_human,
        human_review_reason := parsed.1,
        needs_action := isSub actionToken response_text0,
        intent := some classification.intent }

/-! ## Orchestrator state — `SupportBot` (`main_support_bot.py`)

The SQLite tables are modelled as in-memory lists of rows; the mail
transport, order store and clock are oracle inputs (`Collaborators`).
-/

structure Email where
  id : Txt
  from_email : Txt
  from_name : Txt
  subject : Txt
  body : Txt
deriving DecidableEq

/-- One row of the `processed_emails` table. -/
structure LedgerEntry where
  email_id : Txt
  customer_email : Txt
  subject : Txt
  processed_at : Txt
  response_sent : Bool
  flagged_for_review : Bool
  order_number : Option Txt
  intent : Option Txt
deriving DecidableEq

/-- One row of the `human_review_queue` table. -/
structure ReviewItem where
  id : Nat
  email_id : Txt
  order_number : Txt
  customer_email : Txt
  reason : Txt
  priority : Txt
  created_at : Txt
  resolved_at : Option Txt
  resolved_by : Option Txt
  status : Txt
deriving DecidableEq

structure DB where
  processed_emails : List LedgerEntry
  human_review_queue : List ReviewItem
  next_queue_id : Nat
deriving DecidableEq

structure OrderSnapshot where
  order_number : Txt
deriving DecidableEq

/-- Oracle inputs for one `process_email` run: the policy-engine result, the
order-store lookups, whether `send_reply` succeeds, and the clock. -/
structure Collaborators where
  llm : Except Txt Txt
  find_order_by_number : Option OrderSnapshot
  find_order_by_email : List OrderSnapshot
  send_success : Bool
  now : Txt

/-- Transport-level side effects of one `process_email` run. -/
structure Effects where
  marked_read : Bool
  send_attempted : Bool
deriving DecidableEq

/-- Which terminal branch of `process_email` was taken.  `no_action` is the
final `return True` reached when the response should not be sent (e.g. a
`SPAM_DETECTED:` directive from the policy engine). -/
inductive Outcome
  | skipped_duplicate
  | blocked
  | spam
  | escalated
  | sent
  | send_failed
  | no_action
deriving DecidableEq

def is_email_processed (db : DB) (email_id : Txt) : Bool :=
  db.processed_emails.any (fun e => e.email_id == email_id)

def mark_email_processed (db : DB) (now email_id customer_email subject : Txt)
    (response_sent flagged : Bool) (order_number intent : Option Txt) : DB :=
  { db with
    processed_emails := db.processed_emails ++
      [{ email_id := email_id, customer_email := customer_email, subject := subject,
         processed_at := now, response_sent := response_sent,
         flagged_for_review := flagged, order_number := order_number, intent := intent }] }

def add_to_review_queue (db : DB) (now email_id order_number customer_email reason priority : Txt) : DB :=
  { db with
    human_review_queue := db.human_review_queue ++
      [{ id := db.next_queue_id, email_id := email_id, order_number := order_number,
         customer_email := customer_email, reason := reason, priority := priority,
         created_at := now, resolved_at := none, resolved_by := none,
         status := ("pending").toList }],
    next_queue_id := db.next_queue_id + 1 }

/-- The order-number value recorded by `process_email` after the resolution
flow: keep the extracted number if the order store confirms it, otherwise fall
back to the first order found for the sender. -/
def resolve_order_number (email : Email) (c : Collaborators) : Option Txt :=
  match extract_order_number (email.subject ++ (" ").toList ++ email.body) with
  | some n =>
    match c.find_order_by_number with
    | some _ => some n
    | none =>
      match c.find_order_by_email with
      | ctx :: _ => some ctx.order_number
      | [] => some n
  | none =>
    match c.find_order_by_email with
    | ctx :: _ => some ctx.order_number
    | [] => none

/-- `SupportBot.process_email`: returns the new database, the transport side
effects, and the terminal branch taken (the Python function returns `True`
for every branch except `send_failed`). -/
def process_email (db : DB) (email : Email) (c : Collaborators) : DB × Effects × Outcome :=
  if is_email_processed db email.id then
    (db, { marked_read := false, send_attempted := false }, Outcome.skipped_duplicate)
  else
    let customer_email := email.from_email
    let customer_name :=
      if email.from_name = [] then ("Valued Customer").toList else email.from_name
    let bl := is_blocked_sender customer_email customer_name
    if bl.1 then
      (mark_email_processed db c.now email.id customer_email email.subject
         false false none (some (("blocked_sender").toList)),
       { marked_read := true, send_attempted := false }, Outcome.blocked)
    else
      let order_number := resolve_order_number email c
      let ai := generate_response email.subject email.body c.llm
      if ai.rtype = ("spam").toList then
        (mark_email_processed db c.now email.id customer_email email.subject
           false false order_number (some (("spam").toList)),
         { marked_read := true, send_attempted := false }, Outcome.spam)
      else if ai.flag_for_human then
        let reason := ai.human_review_reason.getD []
        let priority :=
          if isSub (("overdue").toList) (lowerText reason) then ("high").toList
          else ("medium").toList
        let db1 := add_to_review_queue db c.now email.id
          (order_number.getD (("N/A").toList)) customer_email reason priority
        (mark_email_processed db1 c.now email.id customer_email email.subject
           false true order_number ai.intent,
         { marked_read := true, send_attempted := false }, Outcome.escalated)
      else if ai.should_send = true ∧ ai.response.getD [] ≠ [] then
        if c.send_success then
          (mark_email_processed db c.now email.id customer_email email.subject
             true false order_number ai.intent,
           { marked_read := true, send_attempted := true }, Outcome.sent)
        else
          (db, { marked_read := false, send_attempted := true }, Outcome.send_failed)
      else
        (db, { marked_read := false, send_attempted := false }, Outcome.no_action)

/-! ## Dashboard — `ReviewDashboard` (`review_dashboard.py`) -/

/-- SQLite BINARY collation on TEXT values: bytewise (here codepoint-wise)
lexicographic strict order. -/
def textLt : Txt → Txt → Bool
  | [], [] => false
  | [], _ :: _ => true
  | _ :: _, [] => false
  | a :: as_, b :: bs => if a < b then true else if a = b then textLt as_ bs else false

/-- The comparator realising `ORDER BY priority DESC, created_at ASC`. -/
def reviewLE (a b : ReviewItem) : Bool :=
  if a.priority = b.priority then !(textLt b.created_at a.created_at)
  else textLt b.priority a.priority

def insertSorted (le : ReviewItem → ReviewItem → Bool) (x : ReviewItem) :
    List ReviewItem → List ReviewItem
  | [] => [x]
  | y :: ys => if le x y then x :: y :: ys else y :: insertSorted le x ys

def sortLE (le : ReviewItem → ReviewItem → Bool) : List ReviewItem → List ReviewItem
  | [] => []
  | x :: xs => insertSorted le x (sortLE le xs)

/-- `ReviewDashboard.get_pending_reviews`:
`SELECT * FROM human_review_queue WHERE status = 'pending'
 ORDER BY priority DESC, created_at ASC`. -/
def get_pending_reviews (db : DB) : List ReviewItem :=
  sortLE reviewLE
    (db.human_review_queue.filter (fun r => r.status == ("pending").toList))

structure Stats where
  pending : Nat
  resolved : Nat
  automated_responses : Nat
  total_emails : Nat
  automation_rate : ℚ
deriving DecidableEq

/-- `ReviewDashboard.get_review_stats`. -/
def get_review_stats (db : DB) : Stats :=
  let pending := (db.human_review_queue.filter
    (fun r => r.status == ("pending").toList)).length
  let resolved := (db.human_review_queue.filter
    (fun r => r.status == ("resolved").toList)).length
  let automated := (db.processed_emails.filter (fun e => e.response_sent)).length
  let total := db.processed_emails.length
  { pending := pending, resolved := resolved, automated_responses := automated,
    total_emails := total,
    automation_rate := if 0 < total then (automated : ℚ) / (total : ℚ) * 100 else 0 }

/-- The per-row effect of the `UPDATE ... WHERE id = ?` in `mark_resolved`. -/
def resolveRow (review_id : Nat) (resolved_by now : Txt) (r : ReviewItem) : ReviewItem :=
  if r.id = review_id then
    { r with status := ("resolved").toList,
             resolved_at := some now, resolved_by := some resolved_by }
  else r

/-- `ReviewDashboard.mark_resolved`:
`UPDATE human_review_queue SET status='resolved', resolved_at=?, resolved_by=?
 WHERE id = ?` — note the absence of any `status = 'pending'` guard. -/
def mark_resolved (db : DB) (review_id : Nat) (resolved_by now : Txt) : DB :=
  { db with
    human_review_queue := db.human_review_queue.map (resolveRow review_id resolved_by now) }

/-! ## Spec-side definitions (for refinement comparisons) and the claims'
side conditions -/

/-- First four characters are digits.  Used to express "the text contains at
least four consecutive digits" below. -/
def startsWith4Digits : Txt → Bool
  | a :: b :: c :: d :: _ => a.isDigit && b.isDigit && c.isDigit && d.isDigit
  | _ => false

/-- The text contains a run of at least four consecutive digits somewhere.
A text without such a run certainly contains no 4–6 digit token. -/
def hasDigitRun4 : Txt → Bool
  | [] => false
  | c :: t => startsWith4Digits (c :: t) || hasDigitRun4 t

/-- The spec's description of the primary intent: the first intent in
declaration order with at least one keyword match, else `general`. -/
def primary_intent_spec (email_lower : Txt) : Txt :=
  match intents.find? (fun p => p.2.any (fun k => isSub k email_lower)) with
  | some p => p.1
  | none => ("general").toList

/-- The spec's "raw_text with that first line removed". -/
def removeFirstLine (raw : Txt) : Txt := (raw.dropWhile (fun c => c != '\n')).drop 1

/-- The spec-described directive extraction: reason is the remainder of the
first line with the prefix stripped and whitespace trimmed; clean body is
raw_text with that first line removed. -/
def parse_directive_spec (raw : Txt) : Option Txt × Txt :=
  if needsHumanPrefix.isPrefixOf raw then
    (some (pyStrip ((firstLine raw).drop needsHumanPrefix.length)), removeFirstLine raw)
  else (none, raw)

inductive BlockKind
  | domain
  | keyword
deriving DecidableEq

/-- The spec-described sender filter outcome: the first matching fragment,
domain list first (against the email), then keyword list (against name or
email). -/
def first_block_match (sender_email sender_name : Txt) : Option (BlockKind × Txt) :=
  let se := lowerText sender_email
  let sn := lowerText sender_name
  match blocked_domains.find? (fun d => isSub d se) with
  | some d => some (BlockKind.domain, d)
  | none =>
    match blocked_keywords.find? (fun k => isSub k sn || isSub k se) with
    | some k => some (BlockKind.keyword, k)
    | none => none

/-! ## Concrete states used by witnesses and counterexamples -/

def emptyDB : DB := { processed_emails := [], human_review_queue := [], next_queue_id := 1 }

def sampleEmail : Email :=
  { id := ("m1").toList, from_email := ("jane@example.com").toList,
    from_name := ("Jane").toList, subject := ("Hello").toList,
    body := ("Hi there friends").toList }

def sampleLedgerRow : LedgerEntry :=
  { email_id := ("m1").toList, customer_email := ("jane@example.com").toList,
    subject := ("Hello").toList, processed_at := ("T0").toList,
    response_sent := true, flagged_for_review := false,
    order_number := none, intent := some (("general").toList) }

def dupDB : DB :=
  { processed_emails := [sampleLedgerRow], human_review_queue := [], next_queue_id := 1 }

def cSpamDirective : Collaborators :=
  { llm := Except.ok (("SPAM_DETECTED: promo").toList),
    find_order_by_number := none, find_order_by_email := [],
    send_success := true, now := ("T1").toList }

def cPlainOk : Collaborators :=
  { llm := Except.ok (("Thanks for reaching out!").toList),
    find_order_by_number := none, find_order_by_email := [],
    send_success := true, now := ("T1").toList }

def cPlainFail : Collaborators :=
  { llm := Except.ok (("Thanks for reaching out!").toList),
    find_order_by_number := none, find_order_by_email := [],
    send_success := false, now := ("T1").toList }

def mkPendingItem (i : Nat) (priority created : Txt) : ReviewItem :=
  { id := i, email_id := ("e").toList, order_number := ("1111").toList,
    customer_email := ("c@x.com").toList, reason := ("r").toList,
    priority := priority, created_at := created,
    resolved_at := none, resolved_by := none, status := ("pending").toList }

/-- Three pending items of priorities low, high, medium created at t1 < t2 < t3. -/
def queue3DB : DB :=
  { processed_emails := [],
    human_review_queue :=
      [mkPendingItem 1 (("low").toList) (("t1").toList),
       mkPendingItem 2 (("high").toList) (("t2").toList),
       mkPendingItem 3 (("medium").toList) (("t3").toList)],
    next_queue_id := 4 }

/-! ## Helper lemmas -/

lemma resolveRow_resolveRow (i : Nat) (b1 t1 b2 t2 : Txt) (r : ReviewItem) :
    resolveRow i b2 t2 (resolveRow i b1 t1 r) = resolveRow i b2 t2 r := by
  by_cases h : r.id = i <;> simp [resolveRow, h]

lemma map_resolveRow_id (i : Nat) (b t : Txt) :
    ∀ q : List ReviewItem, (∀ r ∈ q, r.id ≠ i) → q.map (resolveRow i b t) = q := by
  intro q
  induction q with
  | nil => intro _; rfl
  | cons a q ih =>
    intro h
    have ha : a.id ≠ i := h a (by simp)
    simp only [List.map_cons, resolveRow, if_neg ha, List.cons.injEq, true_and]
    exact ih (fun r hr => h r (by simp [hr]))

/-! ## Claim theorems -/

/-- C1: once a `ProcessingLedgerEntry` row exists for a message id, any later
run of `process_email` on that id terminates as `SKIPPED_DUPLICATE` with no
side effects: the database is unchanged (so exactly one ledger row remains),
no reply send is attempted, and no mark-read call is issued. -/
theorem process_email_duplicate_skip (db : DB) (email : Email) (c : Collaborators)
    (h : is_email_processed db email.id = true) :
    process_email db email c =
      (db, { marked_read := false, send_attempted := false }, Outcome.skipped_duplicate) := by
  simp [process_email, h]

/-- Witness for C1 at a concrete duplicated message. -/
theorem process_email_duplicate_skip_witness :
    process_email dupDB sampleEmail cPlainOk =
      (dupDB, { marked_read := false, send_attempted := false }, Outcome.skipped_duplicate) :=
  process_email_duplicate_skip dupDB sampleEmail cPlainOk (by decide)

/-- C3 (code bug evaluation): on a queue holding three pending items of
priorities low, high, medium created at t1 < t2 < t3, `get_pending_reviews`
returns them ordered medium, low, high — SQLite's `ORDER BY priority DESC`
compares the TEXT values bytewise, not in the high > medium > low sense the
spec requires. -/
theorem get_pending_reviews_text_sort :
    ((get_pending_reviews queue3DB).map (fun r => r.priority) =
      [("medium").toList, ("low").toList, ("high").toList]) ∧
    ((get_pending_reviews queue3DB).map (fun r => r.priority) ≠
      [("high").toList, ("medium").toList, ("low").toList]) := by
  constructor
  · decide
  · decide

/-- C4 counterexample: resolving the same id twice does not leave the first
resolution's timestamp and actor unchanged — the second call overwrites both,
so applying `mark_resolved` twice differs from applying it once. -/
theorem mark_resolved_not_idempotent :
    (mark_resolved (mark_resolved queue3DB 1 (("alice").toList) (("t9").toList)) 1
        (("bob").toList) (("t10").toList) ≠
      mark_resolved queue3DB 1 (("alice").toList) (("t9").toList)) ∧
    ((mark_resolved (mark_resolved queue3DB 1 (("alice").toList) (("t9").toList)) 1
        (("bob").toList) (("t10").toList)).human_review_queue.map
          (fun r => (r.resolved_at, r.resolved_by)) =
      [(some (("t10").toList), some (("bob").toList)), (none, none), (none, none)]) := by
  constructor
  · decide
  · decide

/-- C4 (amended): `mark_resolved` transitions the matching item to `resolved`,
stamping the given time and actor; it leaves non-matching rows untouched and
is a no-op (raising no error) on a nonexistent id; but a repeated call
overwrites the stamps — the composite of two calls equals the second call
alone (last writer wins), so it is idempotent only for identical arguments. -/
theorem mark_resolved_amended :
    (∀ (db : DB) (i : Nat) (b1 t1 b2 t2 : Txt),
      mark_resolved (mark_resolved db i b1 t1) i b2 t2 = mark_resolved db i b2 t2) ∧
    (∀ (db : DB) (i : Nat) (b t : Txt) (r : ReviewItem),
      r ∈ (mark_resolved db i b t).human_review_queue →
      (r.id = i → r.status = ("resolved").toList ∧
        r.resolved_at = some t ∧ r.resolved_by = some b) ∧
      (r.id ≠ i → r ∈ db.human_review_queue)) ∧
    (∀ (db : DB) (i : Nat) (b t : Txt),
      (∀ r ∈ db.human_review_queue, r.id ≠ i) → mark_resolved db i b t = db) := by
  refine ⟨?_, ?_, ?_⟩
  · intro db i b1 t1 b2 t2
    simp only [mark_resolved, List.map_map]
    exact congrArg (fun f => DB.mk db.processed_emails
        (List.map f db.human_review_queue) db.next_queue_id)
      (funext fun r => resolveRow_resolveRow i b1 t1 b2 t2 r)
  · intro db i b t r hr
    simp only [mark_resolved] at hr
    obtain ⟨r0, hr0, rfl⟩ := List.mem_map.1 hr
    by_cases h0 : r0.id = i
    · constructor
      · intro _; simp [resolveRow, h0]
      · intro hne; exact absurd (by simp [resolveRow, h0]) hne
    · constructor
      · intro hid
        rw [resolveRow, if_neg h0] at hid
        exact absurd hid h0
      · intro _; simpa [resolveRow, h0] using hr0
  · intro db i b t h
    simp only [mark_resolved]
    rw [map_resolveRow_id i b t db.human_review_queue h]

/-- Witness for C4 (amended) at concrete inputs: the last-writer-wins law and
the nonexistent-id no-op, instantiated on the three-item queue. -/
theorem mark_resolved_amended_witness :
    (mark_resolved (mark_resolved queue3DB 1 (("alice").toList) (("t9").toList)) 1
        (("bob").toList) (("t10").toList) =
      mark_resolved queue3DB 1 (("bob").toList) (("t10").toList)) ∧
    mark_resolved queue3DB 7 (("alice").toList) (("t9").toList) = queue3DB :=
  ⟨mark_resolved_amended.1 queue3DB 1 (("alice").toList) (("t9").toList)
      (("bob").toList) (("t10").toList),
   mark_resolved_amended.2.2 queue3DB 7 (("alice").toList) (("t9").toList) (by decide)⟩

/-- C10: `get_review_stats` is total and never divides by zero: on an empty
`processed_emails` table the automation rate is 0, and otherwise it is the
count of rows with `response_sent` set divided by the total row count,
times 100. -/
theorem get_review_stats_rate (db : DB) :
    (db.processed_emails = [] → (get_review_stats db).automation_rate = 0) ∧
    (db.processed_emails ≠ [] →
      (get_review_stats db).automation_rate =
        ((db.processed_emails.filter (fun e => e.response_sent)).length : ℚ) /
          (db.processed_emails.length : ℚ) * 100) := by
  constructor
  · intro h; simp [get_review_stats, h]
  · intro h
    have hpos : 0 < db.processed_emails.length := List.length_pos.2 h
    simp [get_review_stats, hpos]

/-- Witness for C10: the empty table yields rate 0, and a one-row table with
the reply sent yields rate 100. -/
theorem get_review_stats_rate_witness :
    (get_review_stats emptyDB).automation_rate = 0 ∧
    (get_review_stats dupDB).automation_rate =
      ((dupDB.processed_emails.filter (fun e => e.response_sent)).length : ℚ) /
        (dupDB.processed_emails.length : ℚ) * 100 :=
  ⟨(get_review_stats_rate emptyDB).1 rfl,
   (get_review_stats_rate dupDB).2 (by decide)⟩

lemma headD_filter_eq_find (l : List (Txt × List Txt)) (p : Txt × List Txt → Bool) (d : Txt) :
    ((l.filter p).map Prod.fst).headD d =
      (match l.find? p with
       | some x => x.1
       | none => d) := by
  induction l with
  | nil => rfl
  | cons a t ih =>
    by_cases hp : p a = true
    · simp [List.filter_cons, List.find?_cons, hp]
    · simp only [List.filter_cons, List.find?_cons]
      rw [if_neg hp]
      simp only [Bool.not_eq_true] at hp
      rw [hp]
      exact ih

/-- C7: `classify_email_intent` lowercases body ++ " " ++ subject; any spam
keyword substring short-circuits to `is_spam = true, intent = "spam"` with no
categorization; otherwise the primary intent is the first intent in the fixed
declaration order (tracking, return_refund, defective, address_change,
sizing, general) with at least one keyword substring match, ties broken by
declaration order, and `general` when nothing matches — exactly the
spec-described `primary_intent_spec`. -/
theorem classify_email_intent_spec (body subject : Txt) :
    (spam_keywords.any (fun k => isSub k (lowerText (body ++ (" ").toList ++ subject))) = true →
      classify_email_intent body subject =
        { is_spam := true, intent := ("spam").toList, all_intents := [],
          confidence := 9/10 }) ∧
    (spam_keywords.any (fun k => isSub k (lowerText (body ++ (" ").toList ++ subject))) = false →
      (classify_email_intent body subject).is_spam = false ∧
      (classify_email_intent body subject).intent =
        primary_intent_spec (lowerText (body ++ (" ").toList ++ subject))) := by
  constructor
  · intro h
    simp only [classify_email_intent]
    rw [if_pos h]
  · intro h
    have h' : ¬ (spam_keywords.any
        (fun k => isSub k (lowerText (body ++ (" ").toList ++ subject))) = true) := by
      rw [h]; exact Bool.false_ne_true
    refine ⟨?_, ?_⟩
    · simp only [classify_email_intent]
      rw [if_neg h']
    · simp only [classify_email_intent]
      rw [if_neg h']
      unfold primary_intent_spec
      exact headD_filter_eq_find intents
        (fun p => p.2.any (fun k =>
          isSub k (lowerText (body ++ (" ").toList ++ subject)))) (("general").toList)

/-- Witness for C7: a non-spam email about a refund classifies with the
spec-described first-match intent. -/
theorem classify_email_intent_spec_witness :
    (classify_email_intent (("I want a refund for my broken item").toList)
        (("help").toList)).is_spam = false ∧
    (classify_email_intent (("I want a refund for my broken item").toList)
        (("help").toList)).intent =
      primary_intent_spec (lowerText ((("I want a refund for my broken item").toList)
        ++ (" ").toList ++ (("help").toList))) :=
  (classify_email_intent_spec (("I want a refund for my broken item").toList)
    (("help").toList)).2 (by decide)

/-- C9 counterexample: for sender `noreply@x.com` the first matching fragment
is `noreply`, but the returned reason string is `"Blocked domain: noreply"`,
not the fragment's literal text. -/
theorem is_blocked_sender_reason_not_fragment :
    is_blocked_sender (("noreply@x.com").toList) [] =
      (true, ("Blocked domain: noreply").toList) ∧
    first_block_match (("noreply@x.com").toList) [] =
      some (BlockKind.domain, ("noreply").toList) ∧
    ("Blocked domain: noreply").toList ≠ ("noreply").toList := by
  refine ⟨by decide, by decide, by decide⟩

/-- C9 (amended): `is_blocked_sender` lowercases both inputs, checks the
domain fragments against the email first, then the keyword fragments against
name or email, and returns `blocked = true` on the first matching fragment —
with a reason string that is the literal fragment prefixed by
`"Blocked domain: "` or `"Blocked keyword: "` respectively; with no match it
returns `(false, "")`. -/
theorem is_blocked_sender_amended (sender_email sender_name : Txt) :
    is_blocked_sender sender_email sender_name =
      (match first_block_match sender_email sender_name with
       | some (BlockKind.domain, d) => (true, ("Blocked domain: ").toList ++ d)
       | some (BlockKind.keyword, k) => (true, ("Blocked keyword: ").toList ++ k)
       | none => (false, [])) := by
  simp only [is_blocked_sender, first_block_match]
  cases h1 : blocked_domains.find? (fun d => isSub d (lowerText sender_email)) with
  | some d => rfl
  | none =>
    cases h2 : blocked_keywords.find?
        (fun k => isSub k (lowerText sender_name) || isSub k (lowerText sender_email)) with
    | some k => rfl
    | none => rfl

lemma exists_cons_of_isPrefixOf {a : Char} {p s : Txt}
    (h : (a :: p).isPrefixOf s = true) : ∃ t, s = a :: t := by
  cases s with
  | nil => exact absurd h (by simp [List.isPrefixOf])
  | cons b t =>
    have hb : (a == b) = true := by
      simp only [List.isPrefixOf, Bool.and_eq_true] at h
      exact h.1
    exact ⟨t, by rw [eq_of_beq hb]⟩

lemma spamPrefix_not_needsHuman {txt : Txt} (h : spamPrefix.isPrefixOf txt = true) :
    needsHumanPrefix.isPrefixOf txt = false := by
  have h' : ('S' :: (("PAM_DETECTED:").toList)).isPrefixOf txt = true := h
  obtain ⟨t, rfl⟩ := exists_cons_of_isPrefixOf h'
  rfl

lemma parse_directive_no_flag {raw : Txt}
    (h : needsHumanPrefix.isPrefixOf raw = false) : parse_directive raw = (none, raw) := by
  simp only [parse_directive]
  rw [if_neg (by rw [h]; exact Bool.false_ne_true)]

lemma generate_response_spam (subj body : Txt) (llm : Except Txt Txt)
    (h : (classify_email_intent body subj).is_spam = true) :
    generate_response subj body llm =
      { rtype := ("spam").toList, response := none, should_send := false,
        flag_for_human := false, human_review_reason := none,
        needs_action := false, intent := none } := by
  simp only [generate_response]
  rw [if_pos h]

lemma generate_response_ok_eq (subj body txt : Txt)
    (h : (classify_email_intent body subj).is_spam = false) :
    generate_response subj body (Except.ok txt) =
      { rtype := ("customer_inquiry").toList, response := some (parse_directive txt).2,
        should_send := !(needsHumanPrefix.isPrefixOf txt) && !(spamPrefix.isPrefixOf txt),
        flag_for_human := needsHumanPrefix.isPrefixOf txt,
        human_review_reason := (parse_directive txt).1,
        needs_action := isSub actionToken txt,
        intent := some (classify_email_intent body subj).intent } := by
  simp only [generate_response]
  rw [if_neg (by rw [h]; exact Bool.false_ne_true)]

/-- C2 counterexample: on a non-duplicate, non-blocked message that the
Intent Classifier does not flag, a `SPAM_DETECTED:` directive in the policy
engine's output leads to the final fall-through branch: no ledger entry is
written at all (the database is unchanged), no reply is sent, and the message
is not marked read — contradicting the claimed ledger write with
intent `spam`. -/
theorem process_email_spam_directive_counterexample :
    ((classify_email_intent sampleEmail.body sampleEmail.subject).is_spam = false) ∧
    spamPrefix.isPrefixOf (("SPAM_DETECTED: promo").toList) = true ∧
    process_email emptyDB sampleEmail cSpamDirective =
      (emptyDB, { marked_read := false, send_attempted := false }, Outcome.no_action) := by
  refine ⟨by decide, by decide, by decide⟩

/-- C2 (amended): for a non-duplicate, non-blocked message, if the Intent
Classifier marks it as spam then `process_email` writes a ledger entry with
intent `spam`, marks the message read and sends no reply; but if only the
Directive Parser detects a spam directive (`SPAM_DETECTED:` at the start of
the policy engine's output), `process_email` sends no reply yet writes no
ledger entry and does not mark the message read, leaving it eligible for
reprocessing. -/
theorem process_email_spam_amended (db : DB) (email : Email) (c : Collaborators)
    (hdup : is_email_processed db email.id = false)
    (hblk : (is_blocked_sender email.from_email
      (if email.from_name = [] then ("Valued Customer").toList else email.from_name)).1
        = false) :
    ((classify_email_intent email.body email.subject).is_spam = true →
      process_email db email c =
        (mark_email_processed db c.now email.id email.from_email email.subject false false
          (resolve_order_number email c) (some (("spam").toList)),
         { marked_read := true, send_attempted := false }, Outcome.spam)) ∧
    (∀ txt : Txt, (classify_email_intent email.body email.subject).is_spam = false →
      c.llm = Except.ok txt → spamPrefix.isPrefixOf txt = true →
      process_email db email c =
        (db, { marked_read := false, send_attempted := false }, Outcome.no_action)) := by
  have hdup' : ¬ (is_email_processed db email.id = true) := by
    rw [hdup]; exact Bool.false_ne_true
  have hblk' : ¬ ((is_blocked_sender email.from_email
      (if email.from_name = [] then ("Valued Customer").toList else email.from_name)).1
        = true) := by
    rw [hblk]; exact Bool.false_ne_true
  constructor
  · intro hcls
    simp only [process_email]
    rw [if_neg hdup', if_neg hblk',
      generate_response_spam email.subject email.body c.llm hcls]
    rw [if_pos rfl]
  · intro txt hcls hllm hsp
    have hnh := spamPrefix_not_needsHuman hsp
    simp only [process_email]
    rw [if_neg hdup', if_neg hblk', hllm,
      generate_response_ok_eq email.subject email.body txt hcls, hnh, hsp]
    have hrty : ¬ ((("customer_inquiry").toList : Txt) = ("spam").toList) := by decide
    rw [if_neg hrty, if_neg Bool.false_ne_true,
      if_neg (fun hh => Bool.false_ne_true hh.1)]

/-- Witness for C2 (amended), both branches at concrete inputs: a spam-worded
message is ledgered with intent `spam`; a clean message whose policy output
carries the spam directive leaves the database untouched. -/
theorem process_email_spam_amended_witness :
    process_email emptyDB sampleEmail cSpamDirective =
      (emptyDB, { marked_read := false, send_attempted := false }, Outcome.no_action) :=
  (process_email_spam_amended emptyDB sampleEmail cSpamDirective
      (by decide) (by decide)).2
    (("SPAM_DETECTED: promo").toList) (by decide) rfl (by decide)

/-- C5: on the auto-reply path (non-duplicate, non-blocked, not spam, no
escalation directive, non-empty response), a failed reply send leaves the
database unchanged and the message unread — eligible for reprocessing on the
next polling cycle — while a successful send writes a ledger entry with
`response_sent = true` and marks the message read. -/
theorem process_email_send_paths (db : DB) (email : Email) (c : Collaborators) (txt : Txt)
    (hdup : is_email_processed db email.id = false)
    (hblk : (is_blocked_sender email.from_email
      (if email.from_name = [] then ("Valued Customer").toList else email.from_name)).1
        = false)
    (hcls : (classify_email_intent email.body email.subject).is_spam = false)
    (hllm : c.llm = Except.ok txt)
    (hnh : needsHumanPrefix.isPrefixOf txt = false)
    (hsp : spamPrefix.isPrefixOf txt = false)
    (hne : txt ≠ []) :
    (c.send_success = false →
      process_email db email c =
        (db, { marked_read := false, send_attempted := true }, Outcome.send_failed)) ∧
    (c.send_success = true →
      process_email db email c =
        (mark_email_processed db c.now email.id email.from_email email.subject true false
          (resolve_order_number email c)
          (some (classify_email_intent email.body email.subject).intent),
         { marked_read := true, send_attempted := true }, Outcome.sent)) := by
  have hdup' : ¬ (is_email_processed db email.id = true) := by
    rw [hdup]; exact Bool.false_ne_true
  have hblk' : ¬ ((is_blocked_sender email.from_email
      (if email.from_name = [] then ("Valued Customer").toList else email.from_name)).1
        = true) := by
    rw [hblk]; exact Bool.false_ne_true
  have hparse : parse_directive txt = (none, txt) := parse_directive_no_flag hnh
  have hrty : ¬ ((("customer_inquiry").toList : Txt) = ("spam").toList) := by decide
  constructor
  · intro hss
    simp only [process_email]
    rw [if_neg hdup', if_neg hblk', hllm,
      generate_response_ok_eq email.subject email.body txt hcls, hnh, hsp, hparse, hss]
    rw [if_neg hrty, if_neg Bool.false_ne_true, if_pos ⟨rfl, hne⟩,
      if_neg Bool.false_ne_true]
  · intro hss
    simp only [process_email]
    rw [if_neg hdup', if_neg hblk', hllm,
      generate_response_ok_eq email.subject email.body txt hcls, hnh, hsp, hparse, hss]
    rw [if_neg hrty, if_neg Bool.false_ne_true, if_pos ⟨rfl, hne⟩, if_pos rfl]

/-- Witness for C5, both branches on a concrete clean message: the failing
transport leaves the state untouched; the succeeding transport ledgers the
message with the reply recorded. -/
theorem process_email_send_paths_witness :
    (process_email emptyDB sampleEmail cPlainFail =
      (emptyDB, { marked_read := false, send_attempted := true }, Outcome.send_failed)) ∧
    (process_email emptyDB sampleEmail cPlainOk =
      (mark_email_processed emptyDB cPlainOk.now sampleEmail.id sampleEmail.from_email
        sampleEmail.subject true false (resolve_order_number sampleEmail cPlainOk)
        (some (classify_email_intent sampleEmail.body sampleEmail.subject).intent),
       { marked_read := true, send_attempted := true }, Outcome.sent)) :=
  ⟨(process_email_send_paths emptyDB sampleEmail cPlainFail
      (("Thanks for reaching out!").toList) (by decide) (by decide) (by decide) rfl
      (by decide) (by decide) (by decide)).1 rfl,
   (process_email_send_paths emptyDB sampleEmail cPlainOk
      (("Thanks for reaching out!").toList) (by decide) (by decide) (by decide) rfl
      (by decide) (by decide) (by decide)).2 rfl⟩

lemma startsWith4_of_takeWhile_len (s : Txt)
    (h : 4 ≤ (s.takeWhile Char.isDigit).length) : startsWith4Digits s = true := by
  match s with
  | [] => simp [List.takeWhile] at h
  | [a] =>
    by_cases ha : a.isDigit <;> simp [List.takeWhile, ha] at h
  | [a, b] =>
    by_cases ha : a.isDigit <;> by_cases hb : b.isDigit <;>
      simp [List.takeWhile, ha, hb] at h
  | [a, b, c] =>
    by_cases ha : a.isDigit <;> by_cases hb : b.isDigit <;> by_cases hc : c.isDigit <;>
      simp [List.takeWhile, ha, hb, hc] at h
  | a :: b :: c :: d :: rest =>
    by_cases ha : a.isDigit <;> by_cases hb : b.isDigit <;>
      by_cases hc : c.isDigit <;> by_cases hd : d.isDigit <;>
      simp_all [List.takeWhile, startsWith4Digits]

lemma hasDigitRun4_cons_false {c : Char} {t : Txt} (h : hasDigitRun4 (c :: t) = false) :
    startsWith4Digits (c :: t) = false ∧ hasDigitRun4 t = false := by
  simpa [hasDigitRun4, Bool.or_eq_false_iff] using h

lemma startsWith4_false_of_hasRun_false {s : Txt} (h : hasDigitRun4 s = false) :
    startsWith4Digits s = false := by
  cases s with
  | nil => rfl
  | cons c t => exact (hasDigitRun4_cons_false h).1

lemma matchD46End_none {s : Txt} (h : startsWith4Digits s = false) :
    matchD46End s = none := by
  have hlt : ¬ (4 ≤ (s.takeWhile Char.isDigit).length) := by
    intro hge
    have h4 := startsWith4_of_takeWhile_len s hge
    rw [h] at h4
    exact Bool.false_ne_true h4
  simp only [matchD46End]
  rw [if_neg hlt]

lemma hasDigitRun4_drop :
    ∀ (s : Txt), hasDigitRun4 s = false → ∀ n, hasDigitRun4 (s.drop n) = false := by
  intro s
  induction s with
  | nil => intro _ n; rw [List.drop_nil]; rfl
  | cons c t ih =>
    intro h n
    cases n with
    | zero => exact h
    | succ m =>
      rw [List.drop_succ_cons]
      exact ih (hasDigitRun4_cons_false h).2 m

lemma hasDigitRun4_dropWhile (p : Char → Bool) :
    ∀ (s : Txt), hasDigitRun4 s = false → hasDigitRun4 (s.dropWhile p) = false := by
  intro s
  induction s with
  | nil => intro h; exact h
  | cons c t ih =>
    intro h
    rw [List.dropWhile_cons]
    by_cases hc : p c = true
    · rw [if_pos hc]; exact ih (hasDigitRun4_cons_false h).2
    · rw [if_neg hc]; exact h

lemma p1At_none {s : Txt} (h : hasDigitRun4 s = false) : p1At s = none := by
  cases s with
  | nil => rfl
  | cons c t =>
    simp only [p1At]
    by_cases hc : c = '#'
    · rw [if_pos hc]
      exact matchD46End_none (startsWith4_false_of_hasRun_false (hasDigitRun4_cons_false h).2)
    · rw [if_neg hc]

lemma p2At_none {s : Txt} (h : hasDigitRun4 s = false) : p2At s = none := by
  simp only [p2At]
  by_cases ho : lowerText (s.take 5) = ("order").toList
  · rw [if_pos ho]
    have hr1 : hasDigitRun4 ((s.drop 5).dropWhile isPySpace) = false :=
      hasDigitRun4_dropWhile isPySpace _ (hasDigitRun4_drop s h 5)
    cases hr : (s.drop 5).dropWhile isPySpace with
    | nil => rfl
    | cons c t =>
      rw [hr] at hr1
      show matchD46End ((if c = '#' then t else c :: t).dropWhile isPySpace) = none
      by_cases hc : c = '#'
      · rw [if_pos hc]
        exact matchD46End_none (startsWith4_false_of_hasRun_false
          (hasDigitRun4_dropWhile isPySpace t (hasDigitRun4_cons_false hr1).2))
      · rw [if_neg hc]
        exact matchD46End_none (startsWith4_false_of_hasRun_false
          (hasDigitRun4_dropWhile isPySpace (c :: t) hr1))
  · rw [if_neg ho]

lemma p3At_none (prev : Option Char) {s : Txt} (h : hasDigitRun4 s = false) :
    p3At prev s = none := by
  have hlt : ¬ (4 ≤ (s.takeWhile Char.isDigit).length) := by
    intro hge
    have h4 := startsWith4_of_takeWhile_len s hge
    rw [startsWith4_false_of_hasRun_false h] at h4
    exact Bool.false_ne_true h4
  simp only [p3At]
  rw [decide_eq_false hlt]
  simp

lemma reSearch_none (f : Txt → Option Txt)
    (hf : ∀ t : Txt, hasDigitRun4 t = false → f t = none) :
    ∀ s : Txt, hasDigitRun4 s = false → reSearch f s = none := by
  intro s
  induction s with
  | nil => intro h; exact hf [] h
  | cons c t ih =>
    intro h
    simp only [reSearch]
    rw [hf (c :: t) h]
    exact ih (hasDigitRun4_cons_false h).2

lemma reSearchB_none (f : Option Char → Txt → Option Txt)
    (hf : ∀ (prev : Option Char) (t : Txt), hasDigitRun4 t = false → f prev t = none) :
    ∀ (s : Txt) (prev : Option Char), hasDigitRun4 s = false → reSearchB f prev s = none := by
  intro s
  induction s with
  | nil => intro prev h; exact hf prev [] h
  | cons c t ih =>
    intro prev h
    simp only [reSearchB]
    rw [hf prev (c :: t) h]
    exact ih (some c) (hasDigitRun4_cons_false h).2

lemma extract_order_number_no_run {s : Txt} (h : hasDigitRun4 s = false) :
    extract_order_number s = none := by
  simp only [extract_order_number]
  rw [reSearch_none p1At (fun t ht => p1At_none ht) s h,
      reSearch_none p2At (fun t ht => p2At_none ht) s h,
      reSearchB_none p3At (fun prev t ht => p3At_none prev ht) s none h]

/-- C6: `extract_order_number` tries the hash-prefixed pattern, then the
`order`-prefixed pattern, then the bare-token pattern, each searched across
the whole text before the next is attempted, and returns the first match of
the first pattern that matches anywhere — not the match closest to the start
of the text.  In particular `"Order #1234 mentions item 56789"` yields
`"1234"`, `"please check on 56789"` yields `"56789"`, a bare token earlier in
the text loses to a hash-prefixed token later, and a text with no run of four
consecutive digits (hence no 4–6 digit token) yields `none`. -/
theorem extract_order_number_precedence :
    extract_order_number (("Order #1234 mentions item 56789").toList) =
      some (("1234").toList) ∧
    extract_order_number (("please check on 56789").toList) =
      some (("56789").toList) ∧
    extract_order_number (("item 56789 see order #1234").toList) =
      some (("1234").toList) ∧
    (∀ s : Txt, hasDigitRun4 s = false → extract_order_number s = none) := by
  refine ⟨by decide, by decide, by decide, fun s h => extract_order_number_no_run h⟩

/-- Witness for C6: a digit-free text extracts nothing. -/
theorem extract_order_number_precedence_witness :
    extract_order_number (("hello world").toList) = none :=
  extract_order_number_precedence.2.2.2 (("hello world").toList) (by decide)

lemma replaceAllGo_no_occ (pat rep : Txt) :
    ∀ (fuel : Nat) (s : Txt), s.length ≤ fuel → countOcc pat s = 0 →
      replaceAllGo pat rep fuel s = s := by
  intro fuel
  induction fuel with
  | zero =>
    intro s _ _
    cases s with
    | nil => rfl
    | cons c t => rfl
  | succ m ih =>
    intro s hlen h
    cases s with
    | nil => rfl
    | cons c t =>
      have hlen' : t.length ≤ m := by
        simp only [List.length_cons] at hlen
        omega
      simp only [countOcc] at h
      cases hp : pat.isPrefixOf (c :: t) with
      | true =>
        rw [hp] at h
        simp at h
      | false =>
        rw [hp] at h
        simp only [if_neg Bool.false_ne_true, Nat.zero_add] at h
        simp only [replaceAllGo]
        rw [if_neg (fun hh => Bool.false_ne_true (hp ▸ hh.2))]
        rw [ih t hlen' h]

lemma replaceAll_of_no_occ (pat rep : Txt) :
    ∀ s : Txt, countOcc pat s = 0 → replaceAll pat rep s = s :=
  fun s h => replaceAllGo_no_occ pat rep s.length s (Nat.le_refl _) h

lemma countOcc_drop_le (pat : Txt) :
    ∀ (n : Nat) (l : Txt), countOcc pat (l.drop n) ≤ countOcc pat l := by
  intro n
  induction n with
  | zero => intro l; rw [List.drop_zero]
  | succ m ih =>
    intro l
    cases l with
    | nil => rw [List.drop_nil]
    | cons c t =>
      rw [List.drop_succ_cons]
      refine (ih t).trans ?_
      simp only [countOcc]
      omega

lemma replaceAll_of_prefix_once (pat rep : Txt) (hne : pat ≠ []) :
    ∀ s : Txt, pat.isPrefixOf s = true → countOcc pat s = 1 →
      replaceAll pat rep s = rep ++ s.drop pat.length := by
  obtain ⟨a, p, rfl⟩ : ∃ a p, pat = a :: p := by
    cases pat with
    | nil => exact absurd rfl hne
    | cons a p => exact ⟨a, p, rfl⟩
  intro s hpre hcnt
  cases s with
  | nil => simp [List.isPrefixOf] at hpre
  | cons c t =>
    simp only [countOcc] at hcnt
    rw [hpre, if_pos rfl] at hcnt
    have hz : countOcc (a :: p) t = 0 := by omega
    have hz2 : countOcc (a :: p) ((c :: t).drop (a :: p).length) = 0 := by
      rw [List.length_cons, List.drop_succ_cons]
      exact Nat.le_zero.mp ((countOcc_drop_le _ p.length t).trans (Nat.le_of_eq hz))
    show replaceAllGo (a :: p) rep (c :: t).length (c :: t) =
      rep ++ (c :: t).drop (a :: p).length
    rw [List.length_cons]
    simp only [replaceAllGo]
    rw [if_pos ⟨List.cons_ne_nil a p, hpre⟩]
    rw [replaceAllGo_no_occ (a :: p) rep t.length ((c :: t).drop (a :: p).length)
      (by
        simp only [List.length_cons, List.drop_succ_cons, List.length_drop]
        omega) hz2]

lemma takeWhile_isPrefixOf (p : Char → Bool) :
    ∀ s : Txt, (s.takeWhile p).isPrefixOf s = true := by
  intro s
  induction s with
  | nil => rfl
  | cons c t ih =>
    rw [List.takeWhile_cons]
    by_cases hc : p c = true
    · rw [if_pos hc]
      simp only [List.isPrefixOf, Bool.and_eq_true]
      exact ⟨by simp, ih⟩
    · rw [if_neg hc]; rfl

lemma isPrefixOf_firstLine :
    ∀ (pat : Txt), (∀ c ∈ pat, (c != '\n') = true) →
      ∀ s : Txt, pat.isPrefixOf s = true → pat.isPrefixOf (firstLine s) = true := by
  intro pat
  induction pat with
  | nil => intro _ s _; simp [List.isPrefixOf]
  | cons a p ih =>
    intro hnl s h
    cases s with
    | nil => simp [List.isPrefixOf] at h
    | cons b t =>
      simp only [List.isPrefixOf, Bool.and_eq_true] at h
      have hab : a = b := eq_of_beq h.1
      subst hab
      have ha : (a != '\n') = true := hnl a (List.mem_cons_self a p)
      have hfl : firstLine (a :: t) = a :: firstLine t := by
        simp only [firstLine, List.takeWhile_cons]
        rw [if_pos ha]
      rw [hfl]
      simp only [List.isPrefixOf, Bool.and_eq_true]
      exact ⟨by simp, ih (fun c hc => hnl c (List.mem_cons_of_mem a hc)) t h.2⟩

lemma drop_length_takeWhile (p : Char → Bool) :
    ∀ s : Txt, s.drop (s.takeWhile p).length = s.dropWhile p := by
  intro s
  induction s with
  | nil => rfl
  | cons c t ih =>
    by_cases hc : p c = true
    · rw [List.takeWhile_cons, if_pos hc, List.length_cons, List.drop_succ_cons,
          List.dropWhile_cons, if_pos hc]
      exact ih
    · rw [List.takeWhile_cons, if_neg hc, List.dropWhile_cons, if_neg hc]
      rfl

lemma dropWhile_head_false (p : Char → Bool) :
    ∀ (s : Txt) (c : Char) (t : Txt), s.dropWhile p = c :: t → p c = false := by
  intro s
  induction s with
  | nil => intro c t h; simp [List.dropWhile] at h
  | cons a s1 ih =>
    intro c t h
    rw [List.dropWhile_cons] at h
    by_cases ha : p a = true
    · rw [if_pos ha] at h; exact ih c t h
    · rw [if_neg ha] at h
      injection h with h1 h2
      rw [← h1]
      exact Bool.eq_false_iff.mpr ha

lemma pyStrip_cons_newline (t : Txt) : pyStrip ('\n' :: t) = pyStrip t := by
  simp only [pyStrip, List.dropWhile_cons]
  rw [if_pos (by decide : isPySpace '\n' = true)]

/-- C8 counterexample: when the first line's text recurs later in the raw
text, the source's `str.replace` removes every occurrence and then strips,
so the clean body is not "raw_text with that first line removed, the rest
unchanged" — the later duplicate line disappears as well. -/
theorem parse_directive_replace_all_counterexample :
    parse_directive (("NEEDS_HUMAN_REVIEW: X\nA\nNEEDS_HUMAN_REVIEW: X\nB").toList) ≠
      parse_directive_spec (("NEEDS_HUMAN_REVIEW: X\nA\nNEEDS_HUMAN_REVIEW: X\nB").toList) ∧
    (parse_directive (("NEEDS_HUMAN_REVIEW: X\nA\nNEEDS_HUMAN_REVIEW: X\nB").toList)).2 =
      ("A\n\nB").toList ∧
    (parse_directive_spec (("NEEDS_HUMAN_REVIEW: X\nA\nNEEDS_HUMAN_REVIEW: X\nB").toList)).2 =
      ("A\nNEEDS_HUMAN_REVIEW: X\nB").toList := by
  refine ⟨by decide, by decide, by decide⟩

/-- C8 (amended): if the first line does not start with the escalation
prefix, the clean body is raw_text unchanged.  If it does, the source removes
every occurrence of the prefix from the first line (reason) and every
occurrence of the first line's text from raw_text (clean body), each followed
by a whitespace trim; whenever the prefix occurs exactly once in the first
line and the first line's text occurs exactly once in raw_text, this is the
remainder of the first line after the prefix, trimmed, and the
whitespace-trimmed raw_text with the first line removed. -/
theorem parse_directive_amended (raw : Txt) :
    (needsHumanPrefix.isPrefixOf raw = false → parse_directive raw = (none, raw)) ∧
    (needsHumanPrefix.isPrefixOf raw = true →
      countOcc needsHumanPrefix (firstLine raw) = 1 →
      countOcc (firstLine raw) raw = 1 →
      parse_directive raw =
        (some (pyStrip ((firstLine raw).drop needsHumanPrefix.length)),
         pyStrip (removeFirstLine raw))) := by
  constructor
  · intro h; exact parse_directive_no_flag h
  · intro hpf h1 h2
    have hflpre : needsHumanPrefix.isPrefixOf (firstLine raw) = true :=
      isPrefixOf_firstLine needsHumanPrefix (by decide) raw hpf
    have hne : needsHumanPrefix ≠ [] := by decide
    have hflne : firstLine raw ≠ [] := by
      intro hfl
      rw [hfl] at hflpre
      exact absurd hflpre (by decide)
    have hreason : replaceAll needsHumanPrefix [] (firstLine raw) =
        (firstLine raw).drop needsHumanPrefix.length := by
      rw [replaceAll_of_prefix_once needsHumanPrefix [] hne (firstLine raw) hflpre h1]
      rw [List.nil_append]
    have hflpre2 : (firstLine raw).isPrefixOf raw = true :=
      takeWhile_isPrefixOf (fun c => c != '\n') raw
    have hclean : replaceAll (firstLine raw) [] raw =
        raw.drop (firstLine raw).length := by
      rw [replaceAll_of_prefix_once (firstLine raw) [] hflne raw hflpre2 h2]
      rw [List.nil_append]
    have hdrop : pyStrip (raw.drop (firstLine raw).length) =
        pyStrip (removeFirstLine raw) := by
      rw [show firstLine raw = raw.takeWhile (fun c => c != '\n') from rfl,
          drop_length_takeWhile]
      cases hd : raw.dropWhile (fun c => c != '\n') with
      | nil =>
        simp only [removeFirstLine]
        rw [hd]
        rfl
      | cons c rest =>
        have hc : (c != '\n') = false := dropWhile_head_false _ raw c rest hd
        have hcn : c = '\n' := by
          have hbeq : (c == '\n') = true := by
            simpa [bne] using hc
          exact eq_of_beq hbeq
        subst hcn
        simp only [removeFirstLine]
        rw [hd, List.drop_succ_cons, List.drop_zero, pyStrip_cons_newline]
    simp only [parse_directive]
    rw [if_pos hpf, hreason, hclean, hdrop]

/-- Witness for C8 (amended) on a well-formed escalation directive. -/
theorem parse_directive_amended_witness :
    parse_directive (("NEEDS_HUMAN_REVIEW: Not received - Order #1234 - 9 days overdue\nDear customer, so sorry!").toList) =
      (some (pyStrip ((firstLine (("NEEDS_HUMAN_REVIEW: Not received - Order #1234 - 9 days overdue\nDear customer, so sorry!").toList)).drop needsHumanPrefix.length)),
       pyStrip (removeFirstLine (("NEEDS_HUMAN_REVIEW: Not received - Order #1234 - 9 days overdue\nDear customer, so sorry!").toList))) :=
  (parse_directive_amended (("NEEDS_HUMAN_REVIEW: Not received - Order #1234 - 9 days overdue\nDear customer, so sorry!").toList)).2
    (by decide) (by decide) (by decide)
